import Mathlib

/-!
Shallow embedding of the token-creation service of headria/Token-creation
(source: src/src/pinata/index.ts, a bundle of the Pinata/Filebase upload
services, the bonk/launchpad path `createBonkTokenTx`, the pump.fun route
handler, and `TokenService`).

External collaborators are modelled as environment oracles supplied to each
function: RPC node responses, the Helius relay response, the Filebase upload
results, base58 decoding, and PDA derivation (externally defined address
derivation is abstracted as environment functions, per the specification
this is not reimplemented).  Each modelled function additionally returns a
`Trace` counting the network calls it made (RPC calls, relay submissions,
direct broadcasts) and the database create calls, so that claims about
"zero broadcast calls" or "zero network calls" are statable.
-/

set_option maxHeartbeats 1000000

/-- Unicode code points of a JavaScript string (well-formed, no lone
surrogates). -/
abbrev JsString := List Nat

/-- Code points of an ASCII Lean string literal, as a `JsString`. -/
def ascii (s : String) : JsString := s.toList.map Char.toNat

/-- Number of UTF-16 code units one code point occupies; JavaScript
`String.prototype.length` sums these. -/
def utf16Len (c : Nat) : Nat := if c < 65536 then 1 else 2

/-- JavaScript string `.length` (UTF-16 code units). -/
def jsLen : JsString → Nat
  | [] => 0
  | c :: rest => utf16Len c + jsLen rest

/-- All code points are ASCII (below 128). -/
def allAscii (s : JsString) : Bool := s.all (fun c => decide (c < 128))

/-- UTF-8 encoding of one code point. -/
def utf8Char (c : Nat) : List Nat :=
  if c < 128 then [c]
  else if c < 2048 then [192 + c / 64, 128 + c % 64]
  else if c < 65536 then [224 + c / 4096, 128 + (c / 64) % 64, 128 + c % 64]
  else [240 + c / 262144, 128 + (c / 4096) % 64, 128 + (c / 64) % 64, 128 + c % 64]

/-- UTF-8 encoding of a whole string. -/
def utf8Encode : JsString → List Nat
  | [] => []
  | c :: rest => utf8Char c ++ utf8Encode rest

/-- The bytes Node `Buffer.write(string, offset, "utf8")` emits when `space`
bytes remain: the UTF-8 encoding of the longest prefix of whole characters
that fits (partially encoded characters are not written). -/
def utf8FitPrefix : JsString → Nat → List Nat
  | [], _ => []
  | c :: rest, space =>
    if (utf8Char c).length ≤ space then
      utf8Char c ++ utf8FitPrefix rest (space - (utf8Char c).length)
    else []

/-- Overwrite bytes of `buf` starting at `off`, truncated at the end of the
buffer (Node `Buffer.write` with a byte source, e.g. hex). The buffer length
never changes. -/
def bufWriteRaw (buf : List Nat) (off : Nat) (bytes : List Nat) : List Nat :=
  buf.take off ++ bytes.take (buf.length - off)
    ++ buf.drop (off + (bytes.take (buf.length - off)).length)

/-- Node `buffer.write(s, off, "utf8")`. -/
def bufWriteUtf8 (buf : List Nat) (off : Nat) (s : JsString) : List Nat :=
  bufWriteRaw buf off (utf8FitPrefix s (buf.length - off))

/-- Node `buffer.writeUInt32LE(n, off)` payload. -/
def le32 (n : Nat) : List Nat :=
  [n % 256, n / 256 % 256, n / 65536 % 256, n / 16777216 % 256]

/-- The source writes the discriminator one byte at a time with
`writeUInt8(discriminator[i], offset++)`. -/
def writeBytesLoop : List Nat → Nat → List Nat → List Nat
  | buf, _, [] => buf
  | buf, off, b :: rest => writeBytesLoop (bufWriteRaw buf off [b]) (off + 1) rest

/-- Discriminator for create_v2, source lines 1787-1788. -/
def pumpCreateDiscriminator : List Nat := [214, 144, 76, 236, 95, 139, 49, 180]

/-- The instruction data buffer built by
`TokenService.createPumpFunInstruction` (source lines 1768-1818): size
computation, discriminator loop, three length-prefixed string writes, the
32-byte creator public key written via hex round-trip, and the mayhem-mode
byte.  `creatorPub` is the 32-byte public key of the creator keypair. -/
def createPumpFunInstructionData (name symbol uri : JsString)
    (creatorPub : List Nat) (mayhemMode : Bool) : List Nat :=
  let nameLength := jsLen name
  let symbolLength := jsLen symbol
  let uriLength := jsLen uri
  let bufferSize := 8 + 4 + nameLength + 4 + symbolLength + 4 + uriLength + 32 + 1
  let data0 := List.replicate bufferSize 0
  let d1 := writeBytesLoop data0 0 pumpCreateDiscriminator
  let d2 := bufWriteRaw d1 8 (le32 nameLength)
  let d3 := bufWriteUtf8 d2 12 name
  let d4 := bufWriteRaw d3 (12 + nameLength) (le32 symbolLength)
  let d5 := bufWriteUtf8 d4 (16 + nameLength) symbol
  let d6 := bufWriteRaw d5 (16 + nameLength + symbolLength) (le32 uriLength)
  let d7 := bufWriteUtf8 d6 (20 + nameLength + symbolLength) uri
  let d8 := bufWriteRaw d7 (20 + nameLength + symbolLength + uriLength) creatorPub
  bufWriteRaw d8 (52 + nameLength + symbolLength + uriLength)
    [if mayhemMode then 1 else 0]

/-- The layout claimed by the specification sentence for C10: an 8-byte
discriminator, a 4-byte little-endian length followed by the name bytes, the
same for symbol and uri, the 32-byte creator public key, and a final byte
equal to 1 when mayhem mode is set.  This definition follows the words of
the claim and is compared against `createPumpFunInstructionData`. -/
def pumpInstrSpecData (name symbol uri : JsString)
    (creatorPub : List Nat) (mayhemMode : Bool) : List Nat :=
  pumpCreateDiscriminator
    ++ le32 (jsLen name) ++ utf8Encode name
    ++ le32 (jsLen symbol) ++ utf8Encode symbol
    ++ le32 (jsLen uri) ++ utf8Encode uri
    ++ creatorPub ++ [if mayhemMode then 1 else 0]

/-- Counts of outward calls made by a modelled execution. `rpcCalls` counts
every network call (RPC node, relay HTTP, storage upload); `relaySends`
counts Helius relay submission attempts; `directSends` counts
`sendRawTransaction` broadcasts; `storeCalls` counts database create
calls. -/
structure Trace where
  rpcCalls : Nat
  relaySends : Nat
  directSends : Nat
  storeCalls : Nat
deriving DecidableEq, Repr

/-- Result of a Helius relay submission attempt
(`sendWithHelius`, both copies): the four failure modes are a non-null
RPC-level `error` member, a missing `result` member, an axios
network/transport error, and the 30 s request timeout. -/
inductive HeliusOutcome where
  | ok (sig : String)
  | rpcError (msg : String)
  | missingResult
  | networkError (msg : String)
  | timeout
deriving DecidableEq, Repr

def isRelayFailure : HeliusOutcome → Bool
  | .ok _ => false
  | .rpcError _ => true
  | .missingResult => true
  | .networkError _ => true
  | .timeout => true

/-- Oracles for `TokenService.findAvailableAccounts` (source lines
1490-1544): `occupied k i` is whether the i-th of the four parallel
`getAccountInfo` queries of attempt `k` returned a non-null account
(0 = mint, 1 = bonding curve, 2 = associated bonding curve, 3 = metadata);
`genKey k` is the mint keypair freshly generated at attempt `k`; the
`derive*` functions abstract the externally defined PDA derivations from
the mint public key. -/
structure AllocEnv where
  occupied : Nat → Nat → Bool
  genKey : Nat → Nat
  deriveBonding : Nat → Nat
  deriveAssoc : Nat → Nat
  deriveMeta : Nat → Nat

structure Accounts where
  tokenMint : Nat
  bondingCurve : Nat
  associatedBondingCurve : Nat
  metadata : Nat
deriving DecidableEq, Repr

def mkAccounts (env : AllocEnv) (mint : Nat) : Accounts :=
  ⟨mint, env.deriveBonding mint, env.deriveAssoc mint, env.deriveMeta mint⟩

/-- The source condition
`!mintAccountInfo && !bondingCurveInfo && !associatedBondingCurveInfo && !metadataInfo`
over the four account queries of attempt `k` (issued with Promise.all). -/
def attemptFree (env : AllocEnv) (k : Nat) : Bool :=
  !(env.occupied k 0) && !(env.occupied k 1) && !(env.occupied k 2)
    && !(env.occupied k 3)

def allocFailMsg : String :=
  "Failed to find unused mint, bonding curve, or metadata accounts after maximum attempts"

/-- Loop body of `findAvailableAccounts`; `attempt` is the current loop
index, `remaining` the iterations left of the fixed 20, `calls` the RPC
calls made so far (four per attempt). -/
def findAvailableAccountsGo (env : AllocEnv) :
    Nat → Nat → Nat → Except String Accounts × Nat
  | _, 0, calls => (.error allocFailMsg, calls)
  | attempt, remaining + 1, calls =>
    if attemptFree env attempt then
      (.ok (mkAccounts env (env.genKey attempt)), calls + 4)
    else
      findAvailableAccountsGo env (attempt + 1) remaining (calls + 4)

/-- `TokenService.findAvailableAccounts` with `maxAttempts = 20`, together
with the number of RPC calls it made. -/
def findAvailableAccountsT (env : AllocEnv) : Except String Accounts × Nat :=
  findAvailableAccountsGo env 0 20 0

/-- Oracles for the submission phase of `TokenService.createPumpFunToken`
(source lines 1170-1215): the relay outcome, the confirmation made inside
`TokenService.sendWithHelius` (whose error field is only logged), the
confirmation made by `createPumpFunToken` after a relay success, the
`sendRawTransaction` fallback, and its confirmation. -/
structure PumpSubmitEnv where
  helius : HeliusOutcome
  heliusConfirmErr : Option String
  relayConfirmErr : Option String
  fallbackSend : Except String String
  fallbackConfirmErr : Option String
deriving Repr

/-- `TokenService.sendWithHelius` (source lines 1252-1348): one relay POST;
on success one `confirmTransaction` call whose error field is only logged
(`heliusConfirmErr` is deliberately unused, as in the source); every failure
mode throws. -/
def sendWithHeliusTS (env : PumpSubmitEnv) : Except String String × Trace :=
  match env.helius with
  | .ok sig => (.ok sig, ⟨2, 1, 0, 0⟩)
  | .rpcError m => (.error ("Helius Sender error: " ++ m), ⟨1, 1, 0, 0⟩)
  | .missingResult => (.error "No result returned from Helius Sender", ⟨1, 1, 0, 0⟩)
  | .networkError m => (.error m, ⟨1, 1, 0, 0⟩)
  | .timeout => (.error "timeout of 30000ms exceeded", ⟨1, 1, 0, 0⟩)

/-- The catch block of the submission phase (source lines 1191-1215):
`sendRawTransaction`, then `getLatestBlockhash` and `confirmTransaction`;
a non-null confirmation error throws to the outer catch. The Boolean in the
result marks whether the signature came from the relay (`true`) or the
direct fallback (`false`). -/
def pumpFallback (env : PumpSubmitEnv) (t : Trace) :
    Except String (String × Bool) × Trace :=
  match env.fallbackSend with
  | .error e =>
    (.error e, ⟨t.rpcCalls + 1, t.relaySends, t.directSends + 1, t.storeCalls⟩)
  | .ok sig =>
    match env.fallbackConfirmErr with
    | some e =>
      (.error ("Transaction failed: " ++ e),
        ⟨t.rpcCalls + 3, t.relaySends, t.directSends + 1, t.storeCalls⟩)
    | none =>
      (.ok (sig, false),
        ⟨t.rpcCalls + 3, t.relaySends, t.directSends + 1, t.storeCalls⟩)

/-- The submission phase of `createPumpFunToken` (source lines 1170-1215):
try `sendWithHelius`; on success fetch a blockhash and confirm, and a
non-null confirmation error throws into the same catch; the catch performs
the direct-RPC fallback. -/
def submitPhase (env : PumpSubmitEnv) : Except String (String × Bool) × Trace :=
  match sendWithHeliusTS env with
  | (.ok sig, t) =>
    match env.relayConfirmErr with
    | none =>
      (.ok (sig, true), ⟨t.rpcCalls + 2, t.relaySends, t.directSends, t.storeCalls⟩)
    | some _ =>
      pumpFallback env ⟨t.rpcCalls + 2, t.relaySends, t.directSends, t.storeCalls⟩
  | (.error _, t) => pumpFallback env t

/-- `TokenCreationRequest` as consumed by `TokenService` (source lines
1029-1040).  Optional string fields use `[]` for absent or empty (both are
falsy in JavaScript); `imageBuffer` carries the byte length when a buffer is
present; `buyAmount` uses `0` for absent (falsy). -/
structure PumpRequest where
  name : JsString
  symbol : JsString
  creatorKeypair : String
  uri : JsString
  imageBuffer : Option Nat
  external_url : JsString
  buyAmount : Int
  mayhemMode : Bool

def maxSafeInteger : Int := 9007199254740991

/-- The `^https?:\/\/` test used for URL-shaped fields. -/
def matchesUrlPattern (s : JsString) : Bool :=
  (ascii "http://").isPrefixOf s || (ascii "https://").isPrefixOf s

/-- `TokenService.validateRequest` (source lines 1441-1480). -/
def validateRequest (req : PumpRequest) : Except String Unit :=
  if req.name = [] ∨ req.symbol = [] ∨ req.creatorKeypair = ""
      ∨ (req.uri = [] ∧ req.imageBuffer = none) then
    .error "Missing required fields: name, symbol, creatorKeypair, and either uri or image file"
  else if 32 < jsLen req.name then
    .error "Name must be 32 characters or less"
  else if 8 < jsLen req.symbol then
    .error "Symbol must be 8 characters or less"
  else if req.uri ≠ [] ∧ 200 < jsLen req.uri then
    .error "URI must be 200 characters or less"
  else if (match req.imageBuffer with
           | some n => decide (100000000 < n)
           | none => false : Bool) = true then
    .error "Image file must be less than 100MB for Filebase"
  else if req.external_url ≠ [] ∧ matchesUrlPattern req.external_url = false then
    .error "external_url must be a valid URL"
  else if req.buyAmount ≠ 0 ∧ req.buyAmount ≤ 0 then
    .error "buyAmount must be a positive number in lamports"
  else if req.buyAmount ≠ 0 ∧ maxSafeInteger < req.buyAmount then
    .error "buyAmount is too large"
  else .ok ()

/-- Environment of `TokenService.createPumpFunToken`: the bs58 library, the
account-allocation oracles, the Filebase metadata upload, the simulation
result error field, and the submission-phase oracles. -/
structure PumpEnv where
  bs58decode : String → List Nat
  alloc : AllocEnv
  upload : Except String (String × String)
  blockhash1 : String
  simErr : Option String
  submit : PumpSubmitEnv

structure PumpOutcome where
  success : Bool
  signature : Option String
  error : Option String
deriving DecidableEq, Repr

def mkFail (e : String) : PumpOutcome := ⟨false, none, some e⟩

def mkSuccess (sig : String) : PumpOutcome := ⟨true, some sig, none⟩

/-- `TokenService.createPumpFunToken` (source lines 1090-1250).  The whole
body sits in a try/catch whose catch returns `success: false` with the error
message; success returns `success: true` with the signature.  Order of
operations mirrors the source: validate, decode the creator keypair, find
available accounts (RPC), upload metadata, fetch a blockhash and build and
sign the transaction, simulate (a non-null simulation error throws before
any broadcast), submit via the relay with direct-RPC fallback.  After
submission the source builds a `tokenData` object and logs
"Token data stored successfully" but never calls `storeTokenData`, so
`storeCalls` stays 0 on every path. -/
def createPumpFunToken (env : PumpEnv) (req : PumpRequest) :
    PumpOutcome × Trace :=
  match validateRequest req with
  | .error e => (mkFail e, ⟨0, 0, 0, 0⟩)
  | .ok _ =>
    if (env.bs58decode req.creatorKeypair).length ≠ 64 then
      (mkFail "Invalid creatorKeypair: must be 64 bytes", ⟨0, 0, 0, 0⟩)
    else
      match findAvailableAccountsT env.alloc with
      | (.error e, calls) => (mkFail e, ⟨calls, 0, 0, 0⟩)
      | (.ok _accs, calls) =>
        match env.upload with
        | .error e => (mkFail e, ⟨calls + 1, 0, 0, 0⟩)
        | .ok (_uri, _imageUrl) =>
          match env.simErr with
          | some e =>
            (mkFail ("Transaction simulation failed: " ++ e),
              ⟨calls + 3, 0, 0, 0⟩)
          | none =>
            match submitPhase env.submit with
            | (.error e, st) =>
              (mkFail e,
                ⟨calls + 3 + st.rpcCalls, st.relaySends, st.directSends, 0⟩)
            | (.ok (sig, _via), st) =>
              (mkSuccess sig,
                ⟨calls + 3 + st.rpcCalls, st.relaySends, st.directSends, 0⟩)

/-- Request body of POST /api/pumpfun/create-token as the route handler sees
it (source lines 900-983). -/
structure HandlerBody where
  name : JsString
  symbol : JsString
  creatorKeypair : String
  uri : JsString
  external_url : JsString
  buyAmount : Int
  mayhemMode : Option Bool

/-- The pump.fun create-token route handler (source lines 900-983): builds
`tokenData = { ...req.body, mayhemMode: true }`, attaches the uploaded file
buffer, validates, and passes `tokenData` to
`tokenService.createPumpFunToken`.  Returns the request actually handed to
the service, or `none` when the handler rejects with HTTP 400 first. -/
def routeCreateToken (body : HandlerBody) (file : Option Nat) :
    Option PumpRequest :=
  let tokenData : PumpRequest :=
    { name := body.name
      symbol := body.symbol
      creatorKeypair := body.creatorKeypair
      uri := body.uri
      imageBuffer := file
      external_url := body.external_url
      buyAmount := body.buyAmount
      mayhemMode := true }
  if tokenData.name = [] ∨ tokenData.symbol = [] ∨ tokenData.creatorKeypair = ""
      ∨ (tokenData.uri = [] ∧ tokenData.imageBuffer = none) then none
  else if 32 < jsLen tokenData.name then none
  else if 8 < jsLen tokenData.symbol then none
  else if tokenData.uri ≠ [] ∧ 200 < jsLen tokenData.uri then none
  else if tokenData.buyAmount ≠ 0 ∧ tokenData.buyAmount ≤ 0 then none
  else if tokenData.buyAmount ≠ 0 ∧ maxSafeInteger < tokenData.buyAmount then none
  else some tokenData

/-- `LaunchpadRequest` as consumed by `createBonkTokenTx` (validation
fields only; `[]` encodes absent or empty strings, `image` is whether an
image buffer is present, `decimals = 0` encodes absent (falsy)). -/
structure BonkRequest where
  name : JsString
  symbol : JsString
  image : Bool
  description : JsString
  createdOn : JsString
  website : JsString
  twitter : JsString
  telegram : JsString
  decimals : Int
  migrateType : JsString
  platformId : JsString

/-- Oracles for the submission phase of `createBonkTokenTx` (source lines
517-542): module-level `sendWithHelius` outcome, its confirmation error
field (only logged by the source), the direct `sendRawTransaction`
fallback, and the fallback confirmation error field (the source logs only
the slot and never reads the error). -/
structure BonkSubmitEnv where
  helius : HeliusOutcome
  heliusConfirmErr : Option String
  fallbackSend : Except String String
  fallbackConfirmErr : Option String
deriving Repr

/-- Module-level `sendWithHelius` (source lines 176-266): one relay POST;
on success one `confirmTransaction` call whose error field is only logged
(the signature is returned even when the confirmation carries an error);
every failure mode throws. -/
def sendWithHeliusBonk (env : BonkSubmitEnv) : Except String String × Trace :=
  match env.helius with
  | .ok sig => (.ok sig, ⟨2, 1, 0, 0⟩)
  | .rpcError m => (.error ("Helius Sender error: " ++ m), ⟨1, 1, 0, 0⟩)
  | .missingResult => (.error "No result returned from Helius Sender", ⟨1, 1, 0, 0⟩)
  | .networkError m => (.error m, ⟨1, 1, 0, 0⟩)
  | .timeout => (.error "timeout of 30000ms exceeded", ⟨1, 1, 0, 0⟩)

/-- The catch block of `createBonkTokenTx` (source lines 523-542):
`sendRawTransaction` then `confirmTransaction`; the confirmation error
field is never read, so the txid is returned regardless. -/
def bonkFallback (env : BonkSubmitEnv) (t : Trace) :
    Except String String × Trace :=
  match env.fallbackSend with
  | .error e =>
    (.error e, ⟨t.rpcCalls + 1, t.relaySends, t.directSends + 1, t.storeCalls⟩)
  | .ok txid =>
    (.ok txid, ⟨t.rpcCalls + 2, t.relaySends, t.directSends + 1, t.storeCalls⟩)

/-- Submission phase of `createBonkTokenTx` (source lines 517-542). -/
def bonkSubmitPhase (env : BonkSubmitEnv) : Except String String × Trace :=
  match sendWithHeliusBonk env with
  | (.ok sig, t) => (.ok sig, t)
  | (.error _, t) => bonkFallback env t

/-- Environment of `createBonkTokenTx`: public-key parsing of the optional
platformId, the two Filebase uploads, presence of the launchpad config
account, the simulation error field (computed by the source but only
logged, never checked), the submission oracles, and whether the database
create succeeds. -/
structure BonkEnv where
  pubkeyParseOk : JsString → Bool
  uploadImage : Except String String
  uploadMeta : Except String String
  configFound : Bool
  simErr : Option String
  submit : BonkSubmitEnv
  storeOk : Bool

/-- Validation block at the top of `createBonkTokenTx` (source lines
393-436). -/
def bonkValidate (req : BonkRequest) : Except String Unit :=
  if req.name = [] ∨ req.symbol = [] ∨ req.image = false then
    .error "Missing required fields: name, symbol, and image are required"
  else if 32 < jsLen req.name then
    .error "Name must be 32 characters or less"
  else if 8 < jsLen req.symbol then
    .error "Symbol must be 8 characters or less"
  else if req.description ≠ [] ∧ 200 < jsLen req.description then
    .error "Description must be 200 characters or less"
  else if req.createdOn ≠ [] ∧ matchesUrlPattern req.createdOn = false then
    .error "createdOn must be a valid URL"
  else if req.website ≠ [] ∧ matchesUrlPattern req.website = false then
    .error "website must be a valid URL"
  else if req.twitter ≠ [] ∧ matchesUrlPattern req.twitter = false then
    .error "twitter must be a valid URL"
  else if req.telegram ≠ [] ∧ matchesUrlPattern req.telegram = false then
    .error "telegram must be a valid URL"
  else if req.decimals ≠ 0 ∧ (req.decimals < 0 ∨ 9 < req.decimals) then
    .error "Decimals must be a number between 0 and 9"
  else if req.migrateType ≠ [] ∧ req.migrateType ≠ ascii "amm" then
    .error "Invalid migrateType"
  else .ok ()

/-- Validation block of `createBonkFunTokenMetadata` (source lines
301-325). -/
def bonkMetadataValidate (env : BonkEnv) (req : BonkRequest) :
    Except String Unit :=
  if req.name = [] ∨ req.symbol = [] ∨ req.image = false then
    .error "Missing required fields: name, symbol, and image are required"
  else if 32 < jsLen req.name then
    .error "Name must be 32 characters or less"
  else if 8 < jsLen req.symbol then
    .error "Symbol must be 8 characters or less"
  else if req.description ≠ [] ∧ 200 < jsLen req.description then
    .error "Description must be 200 characters or less"
  else if req.platformId ≠ [] ∧ env.pubkeyParseOk req.platformId = false then
    .error "platformId must be a valid Solana public key"
  else .ok ()

/-- `createBonkFunTokenMetadata` (source lines 298-384): validate, upload
the image, upload the metadata document; returns the metadata URI and the
image URL. -/
def createBonkFunTokenMetadata (env : BonkEnv) (req : BonkRequest) :
    Except String (String × String) × Trace :=
  match bonkMetadataValidate env req with
  | .error e => (.error e, ⟨0, 0, 0, 0⟩)
  | .ok _ =>
    match env.uploadImage with
    | .error e =>
      (.error ("Failed to upload to Filebase: Failed to upload image to Filebase: " ++ e),
        ⟨1, 0, 0, 0⟩)
    | .ok imageUrl =>
      match env.uploadMeta with
      | .error e =>
        (.error ("Failed to upload to Filebase: " ++ e), ⟨2, 0, 0, 0⟩)
      | .ok uri => (.ok (uri, imageUrl), ⟨2, 0, 0, 0⟩)

/-- Result of a completed `createBonkTokenTx` run: the signature obtained
from the relay or the fallback, and the signature field the persisted
record was created with (the source passes the literal empty string,
line 577). -/
structure BonkSuccess where
  signature : String
  storedSignature : String
deriving DecidableEq, Repr

/-- `createBonkTokenTx` (source lines 386-589): validate, build metadata
(uploads), check the config account, fetch token info and a blockhash,
build and sign the transaction, simulate — the simulation result is only
stringified into a log (source lines 508-515) and `env.simErr` is never
inspected — submit via the relay with direct fallback, then persist the
token record with an empty signature field.  Errors are rethrown to the
caller. -/
def createBonkTokenTx (env : BonkEnv) (req : BonkRequest) :
    Except String BonkSuccess × Trace :=
  match bonkValidate req with
  | .error e => (.error e, ⟨0, 0, 0, 0⟩)
  | .ok _ =>
    match createBonkFunTokenMetadata env req with
    | (.error e, t) => (.error e, t)
    | (.ok (uri, _imageUrl), t) =>
      if uri = "" then (.error "Token metadata URI is undefined", t)
      else if env.configFound = false then
        (.error "Config not found", ⟨t.rpcCalls + 1, 0, 0, 0⟩)
      else
        match bonkSubmitPhase env.submit with
        | (.error e, st) =>
          (.error e,
            ⟨t.rpcCalls + 4 + st.rpcCalls, st.relaySends, st.directSends, 0⟩)
        | (.ok sig, st) =>
          if env.storeOk then
            (.ok ⟨sig, ""⟩,
              ⟨t.rpcCalls + 4 + st.rpcCalls, st.relaySends, st.directSends, 1⟩)
          else
            (.error "Failed to store token data: database error",
              ⟨t.rpcCalls + 4 + st.rpcCalls, st.relaySends, st.directSends, 1⟩)

/-- Transaction state threaded through `fallbackDirectSubmission`:
the recent blockhash field and the blockhash the current signatures were
produced against (`transaction.sign` binds the signatures to the current
`recentBlockhash`). -/
structure TxState where
  recentBlockhash : String
  signedBlockhash : String
deriving DecidableEq, Repr

structure DirectResult where
  confirmed : Bool
  signature : Option String
  error : Option String
deriving DecidableEq, Repr

/-- Oracles for `TokenService.fallbackDirectSubmission`, indexed by the
attempt number (1-based): the fresh blockhash fetched on retries, the
`sendRawTransaction` result (signature or thrown error), and the
confirmation error field. -/
structure DirectEnv where
  freshBlockhash : Nat → String
  sendResult : Nat → Except String String
  confirmErr : Nat → Option String

/-- One attempt of the loop in `fallbackDirectSubmission` fails when the
broadcast throws or when the confirmation carries a non-null error. -/
def attemptFailsB (env : DirectEnv) (k : Nat) : Bool :=
  match env.sendResult k with
  | .error _ => true
  | .ok _ => (env.confirmErr k).isSome

/-- Loop of `TokenService.fallbackDirectSubmission` (source lines
1617-1682): for attempts 1..maxRetries, refresh the blockhash and re-sign
when attempt > 1, broadcast, confirm; return on clean confirmation,
otherwise remember the failure and continue.  The returned list records,
per broadcast, the attempt number and the transaction state as sent. -/
def fallbackGo (env : DirectEnv) :
    TxState → Nat → Nat → DirectResult → List (Nat × TxState) →
      DirectResult × List (Nat × TxState)
  | _, _, 0, result, sent => (result, sent)
  | tx, attempt, remaining + 1, result, sent =>
    let tx2 := if 1 < attempt then
        { recentBlockhash := env.freshBlockhash attempt
          signedBlockhash := env.freshBlockhash attempt }
      else tx
    let sent2 := sent ++ [(attempt, tx2)]
    match env.sendResult attempt with
    | .error e =>
      fallbackGo env tx2 (attempt + 1) remaining
        ⟨false, result.signature, some e⟩ sent2
    | .ok sig =>
      match env.confirmErr attempt with
      | none => (⟨true, some sig, none⟩, sent2)
      | some ce =>
        fallbackGo env tx2 (attempt + 1) remaining
          ⟨false, some sig, some ("Direct submission failed: " ++ ce)⟩ sent2

/-- `TokenService.fallbackDirectSubmission` with `maxRetries = 3`. -/
def fallbackDirectSubmission (env : DirectEnv) (tx0 : TxState) :
    DirectResult × List (Nat × TxState) :=
  fallbackGo env tx0 1 3 ⟨false, none, some "Direct submission failed"⟩ []

/-- Every recorded broadcast of `fallbackDirectSubmission` happened at an
attempt number within 1..3, and every attempt after the first was sent
with the freshly fetched blockhash and re-signed against it. -/
def sentOk (env : DirectEnv) (l : List (Nat × TxState)) : Bool :=
  l.all (fun p =>
    (decide (1 ≤ p.1) && decide (p.1 ≤ 3)) &&
    (if 2 ≤ p.1 then
        decide (p.2.recentBlockhash = env.freshBlockhash p.1)
          && decide (p.2.signedBlockhash = env.freshBlockhash p.1)
      else true))

/-! ### Concrete environments used by witnesses and counterexamples -/

/-- Allocation oracle where every queried address is unoccupied. -/
def allocEnvFree : AllocEnv :=
  ⟨fun _ _ => false, fun k => k, fun m => m + 1000, fun m => m + 2000,
    fun m => m + 3000⟩

/-- Allocation oracle where every queried address is occupied. -/
def allocEnvBusy : AllocEnv :=
  ⟨fun _ _ => true, fun k => k, fun m => m + 1000, fun m => m + 2000,
    fun m => m + 3000⟩

def peRelayOkW : PumpSubmitEnv :=
  ⟨.ok "sigW", none, none, .ok "fsigW", none⟩

def peRelayFailW : PumpSubmitEnv :=
  ⟨.timeout, none, none, .ok "fsigW", none⟩

def beRelayFailW : BonkSubmitEnv :=
  ⟨.rpcError "rate limited", none, .ok "btxid", none⟩

def pumpReqW : PumpRequest :=
  { name := ascii "Test", symbol := ascii "TST", creatorKeypair := "ck"
    uri := [], imageBuffer := some 10, external_url := []
    buyAmount := 0, mayhemMode := true }

/-- Request whose name is 33 characters long. -/
def pumpReqLong : PumpRequest :=
  { pumpReqW with name := ascii "AAAAAAAAAAAAAAAAAAAAAAAAAAAAAAAAA" }

def pumpEnvSimErrW : PumpEnv :=
  { bs58decode := fun _ => List.replicate 64 1, alloc := allocEnvFree
    upload := .ok ("uriW", "imgW"), blockhash1 := "bh"
    simErr := some "AccountInUse", submit := peRelayOkW }

def pumpEnvOkW : PumpEnv :=
  { pumpEnvSimErrW with simErr := none }

def pumpEnvC7 : PumpEnv :=
  { bs58decode := fun _ => List.replicate 64 2, alloc := allocEnvFree
    upload := .ok ("uriY", "imgY"), blockhash1 := "bh7"
    simErr := none, submit := peRelayOkW }

def bonkReqW : BonkRequest :=
  { name := ascii "Tok", symbol := ascii "TK", image := true
    description := [], createdOn := [], website := [], twitter := []
    telegram := [], decimals := 0, migrateType := [], platformId := [] }

/-- Bonk request whose name is 33 characters long. -/
def bonkReqLong : BonkRequest :=
  { bonkReqW with name := ascii "BBBBBBBBBBBBBBBBBBBBBBBBBBBBBBBBB" }

/-- Bonk environment whose simulation reports a non-null error while the
relay submission succeeds. -/
def bonkEnvSimErr : BonkEnv :=
  { pubkeyParseOk := fun _ => true, uploadImage := .ok "imgB"
    uploadMeta := .ok "uriB", configFound := true
    simErr := some "InstructionError"
    submit := ⟨.ok "bonkSig", none, .ok "fbTxid", none⟩, storeOk := true }

/-- Bonk environment whose relay confirmation carries a non-null on-chain
execution error. -/
def bonkEnvConfirmErr : BonkEnv :=
  { pubkeyParseOk := fun _ => true, uploadImage := .ok "imgB2"
    uploadMeta := .ok "uriB2", configFound := true, simErr := none
    submit := ⟨.ok "bonkSig2", some "InstructionError: custom program error", .ok "fbTxid2", none⟩
    storeOk := true }

def bonkEnvC7 : BonkEnv :=
  { pubkeyParseOk := fun _ => true, uploadImage := .ok "imgB3"
    uploadMeta := .ok "uriB3", configFound := true, simErr := none
    submit := ⟨.ok "bonkSig3", none, .ok "fbTxid3", none⟩, storeOk := true }

def directEnvAllFail : DirectEnv :=
  { freshBlockhash := fun k => "bh" ++ toString k
    sendResult := fun _ => .error "blockhash not found"
    confirmErr := fun _ => none }

def txW : TxState := ⟨"bh0", "bh0"⟩

def bodyW : HandlerBody :=
  { name := ascii "Test", symbol := ascii "TST", creatorKeypair := "ck"
    uri := [], external_url := [], buyAmount := 0, mayhemMode := some false }

/-- The request the handler is expected to pass to the service for
`bodyW` with an uploaded file of 7 bytes. -/
def handlerReqW : PumpRequest :=
  { name := ascii "Test", symbol := ascii "TST", creatorKeypair := "ck"
    uri := [], imageBuffer := some 7, external_url := []
    buyAmount := 0, mayhemMode := true }

def pubW : List Nat := List.replicate 32 3

def c10Name : JsString := [233]

def c10Sym : JsString := [65, 66]

def c10Uri : JsString := [67]

def c10Pub : List Nat := List.replicate 32 5

/-- Whether a `createBonkTokenTx` run completed without throwing. -/
def isOkBonk : Except String BonkSuccess → Bool
  | .ok _ => true
  | .error _ => false

/-! ### Generic list lemmas -/

theorem listTakeLenAppend (l1 l2 : List Nat) :
    (l1 ++ l2).take l1.length = l1 := by
  induction l1 with
  | nil => rfl
  | cons a t ih => simp [ih]

theorem listDropLenAdd (l1 l2 : List Nat) (n : Nat) :
    (l1 ++ l2).drop (l1.length + n) = l2.drop n := by
  induction l1 with
  | nil => simp
  | cons a t ih =>
    simp only [List.cons_append, List.length_cons, Nat.succ_add, List.drop_succ_cons]
    exact ih

theorem listTakeAll (l : List Nat) : ∀ n, l.length ≤ n → l.take n = l := by
  induction l with
  | nil => intro n _; simp
  | cons a t ih =>
    intro n h
    cases n with
    | zero => simp at h
    | succ m => simpa using ih m (Nat.le_of_succ_le_succ h)

theorem dropReplicate (a : Nat) : ∀ (m n : Nat),
    (List.replicate n a).drop m = List.replicate (n - m) a := by
  intro m
  induction m with
  | zero => intro n; simp
  | succ k ih =>
    intro n
    cases n with
    | zero => simp
    | succ n2 =>
      simp only [List.replicate_succ, List.drop_succ_cons, Nat.succ_sub_succ]
      exact ih n2

/-! ### Buffer write lemmas -/

theorem bufWriteRaw_length (buf : List Nat) (off : Nat) (bytes : List Nat) :
    (bufWriteRaw buf off bytes).length = buf.length := by
  unfold bufWriteRaw
  simp only [List.length_append, List.length_take, List.length_drop]
  omega

theorem bufWriteUtf8_length (buf : List Nat) (off : Nat) (s : JsString) :
    (bufWriteUtf8 buf off s).length = buf.length :=
  bufWriteRaw_length buf off (utf8FitPrefix s (buf.length - off))

theorem writeBytesLoop_length (bytes : List Nat) :
    ∀ buf off, (writeBytesLoop buf off bytes).length = buf.length := by
  induction bytes with
  | nil => intro buf off; rfl
  | cons b rest ih =>
    intro buf off
    show (writeBytesLoop (bufWriteRaw buf off [b]) (off + 1) rest).length = buf.length
    rw [ih, bufWriteRaw_length]

theorem bufWriteRaw_eq (pre rest bytes : List Nat)
    (h : bytes.length ≤ rest.length) :
    bufWriteRaw (pre ++ rest) pre.length bytes
      = pre ++ (bytes ++ rest.drop bytes.length) := by
  unfold bufWriteRaw
  have h1 : (pre ++ rest).length - pre.length = rest.length := by simp
  rw [h1, listTakeAll bytes rest.length h, listTakeLenAppend, listDropLenAdd,
    List.append_assoc]

theorem stepWrite (pre : List Nat) (z : Nat) (bytes : List Nat) (off : Nat)
    (hoff : off = pre.length) (hfit : bytes.length ≤ z) :
    bufWriteRaw (pre ++ List.replicate z 0) off bytes
      = (pre ++ bytes) ++ List.replicate (z - bytes.length) 0 := by
  subst hoff
  rw [bufWriteRaw_eq pre (List.replicate z 0) bytes (by simpa using hfit),
    dropReplicate, List.append_assoc]

theorem stepWriteLoop (bytes : List Nat) : ∀ (pre : List Nat) (z off : Nat),
    off = pre.length → bytes.length ≤ z →
    writeBytesLoop (pre ++ List.replicate z 0) off bytes
      = (pre ++ bytes) ++ List.replicate (z - bytes.length) 0 := by
  induction bytes with
  | nil =>
    intro pre z off hoff _
    subst hoff
    simp [writeBytesLoop]
  | cons b bs ih =>
    intro pre z off hoff hfit
    subst hoff
    have hfit2 : bs.length + 1 ≤ z := by simpa using hfit
    show writeBytesLoop (bufWriteRaw (pre ++ List.replicate z 0) pre.length [b])
        (pre.length + 1) bs = _
    rw [stepWrite pre z [b] pre.length rfl (by simp; omega)]
    have e2 : pre.length + 1 = (pre ++ [b]).length := by simp
    rw [e2, ih (pre ++ [b]) (z - ([b] : List Nat).length) _ rfl (by simp; omega)]
    have e3 : z - ([b] : List Nat).length - bs.length = z - (b :: bs).length := by
      simp; omega
    rw [e3]
    simp [List.append_assoc]

theorem utf8FitPrefixAscii (s : JsString) :
    allAscii s = true → ∀ space, s.length ≤ space → utf8FitPrefix s space = s := by
  induction s with
  | nil => intro _ space _; rfl
  | cons c cs ih =>
    intro h space hsp
    simp only [allAscii, List.all_cons, Bool.and_eq_true] at h
    have hc : c < 128 := of_decide_eq_true h.1
    have hchar : utf8Char c = [c] := by rw [utf8Char, if_pos hc]
    have hsp1 : (utf8Char c).length ≤ space := by
      rw [hchar]; simp at hsp ⊢; omega
    show (if (utf8Char c).length ≤ space then
        utf8Char c ++ utf8FitPrefix cs (space - (utf8Char c).length)
      else []) = c :: cs
    rw [if_pos hsp1, hchar]
    have hcs : utf8FitPrefix cs (space - 1) = cs := by
      apply ih h.2 (space - 1)
      simp at hsp; omega
    simp [hcs]

theorem jsLenAscii (s : JsString) : allAscii s = true → jsLen s = s.length := by
  induction s with
  | nil => intro _; rfl
  | cons c cs ih =>
    intro h
    simp only [allAscii, List.all_cons, Bool.and_eq_true] at h
    have hc : c < 128 := of_decide_eq_true h.1
    have h16 : utf16Len c = 1 := by rw [utf16Len, if_pos (by omega)]
    show utf16Len c + jsLen cs = cs.length + 1
    rw [h16, ih h.2]
    omega

theorem utf8EncodeAscii (s : JsString) :
    allAscii s = true → utf8Encode s = s := by
  induction s with
  | nil => intro _; rfl
  | cons c cs ih =>
    intro h
    simp only [allAscii, List.all_cons, Bool.and_eq_true] at h
    have hc : c < 128 := of_decide_eq_true h.1
    have hchar : utf8Char c = [c] := by rw [utf8Char, if_pos hc]
    show utf8Char c ++ utf8Encode cs = c :: cs
    rw [hchar, ih h.2]
    rfl

theorem stepWriteUtf8 (pre : List Nat) (z : Nat) (s : JsString) (off : Nat)
    (hoff : off = pre.length) (hascii : allAscii s = true) (hfit : s.length ≤ z) :
    bufWriteUtf8 (pre ++ List.replicate z 0) off s
      = (pre ++ s) ++ List.replicate (z - s.length) 0 := by
  subst hoff
  unfold bufWriteUtf8
  have hsp : (pre ++ List.replicate z 0).length - pre.length = z := by simp
  rw [hsp, utf8FitPrefixAscii s hascii z hfit]
  exact stepWrite pre z s pre.length rfl hfit

theorem createPumpFunInstructionDataLength (name symbol uri : JsString)
    (pub : List Nat) (m : Bool) :
    (createPumpFunInstructionData name symbol uri pub m).length
      = 53 + jsLen name + jsLen symbol + jsLen uri := by
  unfold createPumpFunInstructionData
  simp only [bufWriteRaw_length, bufWriteUtf8_length, writeBytesLoop_length,
    List.length_replicate]
  omega

theorem createPumpFunInstructionDataAsciiLayout (name symbol uri : JsString)
    (pub : List Nat) (m : Bool) (hn : allAscii name = true)
    (hs : allAscii symbol = true) (hu : allAscii uri = true)
    (hp : pub.length = 32) :
    createPumpFunInstructionData name symbol uri pub m
      = pumpInstrSpecData name symbol uri pub m := by
  have hn1 : jsLen name = name.length := jsLenAscii name hn
  have hs1 : jsLen symbol = symbol.length := jsLenAscii symbol hs
  have hu1 : jsLen uri = uri.length := jsLenAscii uri hu
  unfold createPumpFunInstructionData pumpInstrSpecData
  rw [hn1, hs1, hu1, utf8EncodeAscii name hn, utf8EncodeAscii symbol hs,
    utf8EncodeAscii uri hu]
  dsimp only
  set B := 8 + 4 + name.length + 4 + symbol.length + 4 + uri.length + 32 + 1
    with hB
  have hdisc : pumpCreateDiscriminator.length = 8 := rfl
  have h1 : writeBytesLoop (List.replicate B 0) 0 pumpCreateDiscriminator
      = pumpCreateDiscriminator ++ List.replicate (B - 8) 0 := by
    have := stepWriteLoop pumpCreateDiscriminator [] B 0 rfl
      (by rw [hdisc]; omega)
    simpa [hdisc] using this
  rw [h1]
  have h2 : bufWriteRaw (pumpCreateDiscriminator ++ List.replicate (B - 8) 0) 8
      (le32 name.length)
      = (pumpCreateDiscriminator ++ le32 name.length)
          ++ List.replicate (B - 8 - 4) 0 := by
    have := stepWrite pumpCreateDiscriminator (B - 8) (le32 name.length) 8
      (by rw [hdisc]) (by simp [le32]; omega)
    simpa [le32] using this
  rw [h2]
  have h3 : bufWriteUtf8 ((pumpCreateDiscriminator ++ le32 name.length)
        ++ List.replicate (B - 8 - 4) 0) 12 name
      = ((pumpCreateDiscriminator ++ le32 name.length) ++ name)
          ++ List.replicate (B - 8 - 4 - name.length) 0 := by
    exact stepWriteUtf8 _ _ name 12
      (by simp only [List.length_append, hdisc, le32, List.length_cons,
            List.length_nil])
      hn (by omega)
  rw [h3]
  have h4 : bufWriteRaw (((pumpCreateDiscriminator ++ le32 name.length) ++ name)
        ++ List.replicate (B - 8 - 4 - name.length) 0) (12 + name.length)
      (le32 symbol.length)
      = ((((pumpCreateDiscriminator ++ le32 name.length) ++ name)
          ++ le32 symbol.length))
          ++ List.replicate (B - 8 - 4 - name.length - 4) 0 := by
    have := stepWrite (((pumpCreateDiscriminator ++ le32 name.length) ++ name))
      (B - 8 - 4 - name.length) (le32 symbol.length) (12 + name.length)
      (by simp only [List.length_append, hdisc, le32, List.length_cons,
            List.length_nil]; try omega)
      (by simp [le32]; omega)
    simpa [le32] using this
  rw [h4]
  have h5 : bufWriteUtf8 ((((pumpCreateDiscriminator ++ le32 name.length)
          ++ name) ++ le32 symbol.length)
        ++ List.replicate (B - 8 - 4 - name.length - 4) 0)
      (16 + name.length) symbol
      = (((((pumpCreateDiscriminator ++ le32 name.length) ++ name)
          ++ le32 symbol.length) ++ symbol))
          ++ List.replicate (B - 8 - 4 - name.length - 4 - symbol.length) 0 := by
    exact stepWriteUtf8 _ _ symbol (16 + name.length)
      (by simp only [List.length_append, hdisc, le32, List.length_cons,
            List.length_nil]; try omega)
      hs (by omega)
  rw [h5]
  have h6 : bufWriteRaw ((((((pumpCreateDiscriminator ++ le32 name.length)
          ++ name) ++ le32 symbol.length) ++ symbol))
        ++ List.replicate (B - 8 - 4 - name.length - 4 - symbol.length) 0)
      (16 + name.length + symbol.length) (le32 uri.length)
      = ((((((pumpCreateDiscriminator ++ le32 name.length) ++ name)
          ++ le32 symbol.length) ++ symbol) ++ le32 uri.length))
          ++ List.replicate
              (B - 8 - 4 - name.length - 4 - symbol.length - 4) 0 := by
    have := stepWrite ((((pumpCreateDiscriminator ++ le32 name.length) ++ name)
        ++ le32 symbol.length) ++ symbol)
      (B - 8 - 4 - name.length - 4 - symbol.length) (le32 uri.length)
      (16 + name.length + symbol.length)
      (by simp only [List.length_append, hdisc, le32, List.length_cons,
            List.length_nil]; try omega)
      (by simp [le32]; omega)
    simpa [le32] using this
  rw [h6]
  have h7 : bufWriteUtf8 (((((((pumpCreateDiscriminator ++ le32 name.length)
          ++ name) ++ le32 symbol.length) ++ symbol) ++ le32 uri.length))
        ++ List.replicate (B - 8 - 4 - name.length - 4 - symbol.length - 4) 0)
      (20 + name.length + symbol.length) uri
      = (((((((pumpCreateDiscriminator ++ le32 name.length) ++ name)
          ++ le32 symbol.length) ++ symbol) ++ le32 uri.length) ++ uri))
          ++ List.replicate
              (B - 8 - 4 - name.length - 4 - symbol.length - 4 - uri.length) 0 := by
    exact stepWriteUtf8 _ _ uri (20 + name.length + symbol.length)
      (by simp only [List.length_append, hdisc, le32, List.length_cons,
            List.length_nil]; try omega)
      hu (by omega)
  rw [h7]
  have h8 : bufWriteRaw ((((((((pumpCreateDiscriminator ++ le32 name.length)
          ++ name) ++ le32 symbol.length) ++ symbol) ++ le32 uri.length)
          ++ uri))
        ++ List.replicate
            (B - 8 - 4 - name.length - 4 - symbol.length - 4 - uri.length) 0)
      (20 + name.length + symbol.length + uri.length) pub
      = ((((((((pumpCreateDiscriminator ++ le32 name.length) ++ name)
          ++ le32 symbol.length) ++ symbol) ++ le32 uri.length) ++ uri)
          ++ pub))
          ++ List.replicate
              (B - 8 - 4 - name.length - 4 - symbol.length - 4 - uri.length
                - 32) 0 := by
    have := stepWrite (((((pumpCreateDiscriminator ++ le32 name.length) ++ name)
        ++ le32 symbol.length) ++ symbol) ++ le32 uri.length ++ uri)
      (B - 8 - 4 - name.length - 4 - symbol.length - 4 - uri.length) pub
      (20 + name.length + symbol.length + uri.length)
      (by simp only [List.length_append, hdisc, le32, List.length_cons,
            List.length_nil]; try omega)
      (by rw [hp]; omega)
    rw [hp] at this
    simpa using this
  rw [h8]
  have h9 : bufWriteRaw (((((((((pumpCreateDiscriminator ++ le32 name.length)
          ++ name) ++ le32 symbol.length) ++ symbol) ++ le32 uri.length)
          ++ uri) ++ pub))
        ++ List.replicate
            (B - 8 - 4 - name.length - 4 - symbol.length - 4 - uri.length - 32) 0)
      (52 + name.length + symbol.length + uri.length)
      [if m then 1 else 0]
      = (((((((((pumpCreateDiscriminator ++ le32 name.length) ++ name)
          ++ le32 symbol.length) ++ symbol) ++ le32 uri.length) ++ uri)
          ++ pub) ++ [if m then 1 else 0]))
          ++ List.replicate
              (B - 8 - 4 - name.length - 4 - symbol.length - 4 - uri.length
                - 32 - 1) 0 := by
    have := stepWrite ((((((pumpCreateDiscriminator ++ le32 name.length)
        ++ name) ++ le32 symbol.length) ++ symbol) ++ le32 uri.length ++ uri)
        ++ pub)
      (B - 8 - 4 - name.length - 4 - symbol.length - 4 - uri.length - 32)
      [if m then 1 else 0]
      (52 + name.length + symbol.length + uri.length)
      (by simp only [List.length_append, hdisc, le32, List.length_cons,
            List.length_nil, hp]; try omega)
      (by simp; omega)
    simpa using this
  rw [h9]
  have hz : B - 8 - 4 - name.length - 4 - symbol.length - 4 - uri.length
      - 32 - 1 = 0 := by omega
  rw [hz]
  simp [List.append_assoc]

/-! ### Lemmas about findAvailableAccounts -/

theorem findAvailableAccountsGoFree (env : AllocEnv) :
    ∀ (r a c k : Nat), k < r → attemptFree env (a + k) = true →
      (∀ j, j < k → attemptFree env (a + j) = false) →
      findAvailableAccountsGo env a r c
        = (.ok (mkAccounts env (env.genKey (a + k))), c + 4 * (k + 1)) := by
  intro r
  induction r with
  | zero => intro a c k hk; exact absurd hk (Nat.not_lt_zero k)
  | succ r ih =>
    intro a c k hk hfree hbusy
    cases k with
    | zero =>
      simp only [Nat.add_zero] at hfree
      simp [findAvailableAccountsGo, hfree]
    | succ k2 =>
      have hbusy0 : attemptFree env a = false := by
        have := hbusy 0 (Nat.succ_pos k2)
        simpa using this
      have e1 : a + 1 + k2 = a + (k2 + 1) := by omega
      have hfree2 : attemptFree env (a + 1 + k2) = true := by rw [e1]; exact hfree
      have hbusy2 : ∀ j, j < k2 → attemptFree env (a + 1 + j) = false := by
        intro j hj
        have := hbusy (j + 1) (by omega)
        have e2 : a + 1 + j = a + (j + 1) := by omega
        rw [e2]; exact this
      have hrec := ih (a + 1) (c + 4) k2 (by omega) hfree2 hbusy2
      rw [e1] at hrec
      have e3 : c + 4 + 4 * (k2 + 1) = c + 4 * (k2 + 1 + 1) := by omega
      rw [e3] at hrec
      simp [findAvailableAccountsGo, hbusy0, hrec]

theorem findAvailableAccountsGoBusy (env : AllocEnv) :
    ∀ (r a c : Nat), (∀ k, k < r → attemptFree env (a + k) = false) →
      findAvailableAccountsGo env a r c = (.error allocFailMsg, c + 4 * r) := by
  intro r
  induction r with
  | zero => intro a c _; simp [findAvailableAccountsGo]
  | succ r ih =>
    intro a c hbusy
    have h0 : attemptFree env a = false := by
      have := hbusy 0 (Nat.succ_pos r)
      simpa using this
    have hrec := ih (a + 1) (c + 4) (by
      intro k hk
      have := hbusy (k + 1) (by omega)
      have e2 : a + 1 + k = a + (k + 1) := by omega
      rw [e2]; exact this)
    have e3 : c + 4 + 4 * r = c + 4 * (r + 1) := by omega
    rw [e3] at hrec
    simp [findAvailableAccountsGo, h0, hrec]

/-! ### Claim theorems -/

/-- C5: `findAvailableAccounts` generates a fresh mint keypair on each
attempt, issues the four account queries per attempt, returns the derived
tuple at the first attempt where all four addresses are unoccupied, retries
otherwise, and after the fixed maximum of 20 exhausted attempts fails with
the allocation error (having made exactly 4 times 20 RPC calls). -/
theorem findAvailableAccounts_claim (env : AllocEnv) :
    (∀ k, k < 20 → attemptFree env k = true →
        (∀ j, j < k → attemptFree env j = false) →
        findAvailableAccountsT env
          = (.ok (mkAccounts env (env.genKey k)), 4 * (k + 1)))
    ∧ ((∀ k, k < 20 → attemptFree env k = false) →
        findAvailableAccountsT env = (.error allocFailMsg, 80)) := by
  constructor
  · intro k hk hfree hbusy
    have := findAvailableAccountsGoFree env 20 0 0 k hk (by simpa using hfree)
      (fun j hj => by simpa using hbusy j hj)
    simpa [findAvailableAccountsT] using this
  · intro h
    have := findAvailableAccountsGoBusy env 20 0 0
      (fun k hk => by simpa using h k hk)
    simpa [findAvailableAccountsT] using this

/-- Witness for C5: with every address free the first attempt returns its
tuple after 4 RPC calls; with every address occupied the 20 attempts are
exhausted after 80 RPC calls and the allocation error is returned. -/
theorem findAvailableAccounts_claim_witness :
    findAvailableAccountsT allocEnvFree
        = (.ok (mkAccounts allocEnvFree (allocEnvFree.genKey 0)), 4)
    ∧ findAvailableAccountsT allocEnvBusy = (.error allocFailMsg, 80) := by
  constructor
  · have := (findAvailableAccounts_claim allocEnvFree).1 0 (by omega) rfl
      (fun j hj => absurd hj (Nat.not_lt_zero j))
    simpa using this
  · exact (findAvailableAccounts_claim allocEnvBusy).2 (fun k _ => rfl)

/-- C4: every execution of `fallbackDirectSubmission` broadcasts at most 3
times, every broadcast happens at an attempt number in 1..3 and every
attempt after the first is sent with the freshly fetched blockhash and
re-signed against it, and when all three attempts fail the function
terminates with a failure result carrying an error message. -/
theorem fallbackDirectSubmission_claim (env : DirectEnv) (tx0 : TxState) :
    ((fallbackDirectSubmission env tx0).2.length ≤ 3
      ∧ sentOk env (fallbackDirectSubmission env tx0).2 = true)
    ∧ (attemptFailsB env 1 = true → attemptFailsB env 2 = true →
        attemptFailsB env 3 = true →
        (fallbackDirectSubmission env tx0).1.confirmed = false
          ∧ ((fallbackDirectSubmission env tx0).1.error).isSome = true) := by
  rcases h1 : env.sendResult 1 with e1 | s1 <;>
    rcases h2 : env.sendResult 2 with e2 | s2 <;>
      rcases h3 : env.sendResult 3 with e3 | s3 <;>
        rcases c1 : env.confirmErr 1 with _ | ce1 <;>
          rcases c2 : env.confirmErr 2 with _ | ce2 <;>
            rcases c3 : env.confirmErr 3 with _ | ce3 <;>
              simp [fallbackDirectSubmission, fallbackGo, sentOk, attemptFailsB,
                h1, h2, h3, c1, c2, c3]

/-- Witness for C4: with every broadcast throwing, the fallback makes its
three attempts and resolves to a failure result. -/
theorem fallbackDirectSubmission_claim_witness :
    ((fallbackDirectSubmission directEnvAllFail txW).2.length ≤ 3
      ∧ sentOk directEnvAllFail (fallbackDirectSubmission directEnvAllFail txW).2 = true)
    ∧ ((fallbackDirectSubmission directEnvAllFail txW).1.confirmed = false
      ∧ ((fallbackDirectSubmission directEnvAllFail txW).1.error).isSome = true) :=
  ⟨(fallbackDirectSubmission_claim directEnvAllFail txW).1,
   (fallbackDirectSubmission_claim directEnvAllFail txW).2 rfl rfl rfl⟩

/-- C3: each of the four relay failure modes (RPC-level error, missing
result, network/transport error, timeout) makes the submission phase
delegate to the direct-RPC fallback — one direct broadcast happens and the
outcome is exactly the outcome of the fallback — in both
`createPumpFunToken` and `createBonkTokenTx`, instead of terminating the
operation with failure. -/
theorem relayFailure_falls_back (pe : PumpSubmitEnv) (be : BonkSubmitEnv)
    (hp : isRelayFailure pe.helius = true)
    (hb : isRelayFailure be.helius = true) :
    (submitPhase pe = pumpFallback pe ⟨1, 1, 0, 0⟩
      ∧ (submitPhase pe).2.directSends = 1)
    ∧ (bonkSubmitPhase be = bonkFallback be ⟨1, 1, 0, 0⟩
      ∧ (bonkSubmitPhase be).2.directSends = 1) := by
  have h1 : submitPhase pe = pumpFallback pe ⟨1, 1, 0, 0⟩ := by
    rcases hh : pe.helius with s | m | _ | m | _ <;>
      simp [submitPhase, sendWithHeliusTS, hh]
    simp [isRelayFailure, hh] at hp
  have h2 : (pumpFallback pe ⟨1, 1, 0, 0⟩).2.directSends = 1 := by
    rcases hf : pe.fallbackSend with e | s <;>
      rcases hc : pe.fallbackConfirmErr with _ | ce <;>
        simp [pumpFallback, hf, hc]
  have h3 : bonkSubmitPhase be = bonkFallback be ⟨1, 1, 0, 0⟩ := by
    rcases hh : be.helius with s | m | _ | m | _ <;>
      simp [bonkSubmitPhase, sendWithHeliusBonk, hh]
    simp [isRelayFailure, hh] at hb
  have h4 : (bonkFallback be ⟨1, 1, 0, 0⟩).2.directSends = 1 := by
    rcases hf : be.fallbackSend with e | s <;> simp [bonkFallback, hf]
  exact ⟨⟨h1, by rw [h1]; exact h2⟩, ⟨h3, by rw [h3]; exact h4⟩⟩

/-- Witness for C3: a relay timeout in the pump path and a relay RPC error
in the bonk path both delegate to the fallback with one direct broadcast. -/
theorem relayFailure_falls_back_witness :
    (submitPhase peRelayFailW = pumpFallback peRelayFailW ⟨1, 1, 0, 0⟩
      ∧ (submitPhase peRelayFailW).2.directSends = 1)
    ∧ (bonkSubmitPhase beRelayFailW = bonkFallback beRelayFailW ⟨1, 1, 0, 0⟩
      ∧ (bonkSubmitPhase beRelayFailW).2.directSends = 1) :=
  relayFailure_falls_back peRelayFailW beRelayFailW rfl rfl

/-- C2 (amended): in `createPumpFunToken` a success outcome of the
submission phase via the relay path implies the relay confirmation carried
no error, and via the fallback path implies the fallback confirmation
carried no error; a relay confirmation error instead triggers the fallback.
(In `createBonkTokenTx` and the module-level `sendWithHelius` the
confirmation error is only logged and success is reported regardless; see
the counterexample.) -/
theorem pump_success_requires_clean_confirmation (env : PumpSubmitEnv)
    (sig : String) (viaRelay : Bool)
    (h : (submitPhase env).1 = Except.ok (sig, viaRelay)) :
    (viaRelay = true → env.relayConfirmErr = none)
    ∧ (viaRelay = false → env.fallbackConfirmErr = none) := by
  rcases hh : env.helius with s | m | _ | m | _ <;>
    rcases hr : env.relayConfirmErr with _ | re <;>
      rcases hf : env.fallbackSend with e | fs <;>
        rcases hc : env.fallbackConfirmErr with _ | ce <;>
          simp_all [submitPhase, sendWithHeliusTS, pumpFallback]

/-- Witness for C2: a clean relay submission and confirmation yields a
relay-path success, and the theorem recovers that its confirmation error
was null. -/
theorem pump_success_requires_clean_confirmation_witness :
    (submitPhase peRelayOkW).1 = Except.ok ("sigW", true)
    ∧ peRelayOkW.relayConfirmErr = none :=
  ⟨rfl, (pump_success_requires_clean_confirmation peRelayOkW "sigW" true rfl).1 rfl⟩

/-- C2 counterexample: in the bonk path the relay confirmation carries a
non-null on-chain execution error, yet `createBonkTokenTx` completes
successfully (the module-level `sendWithHelius` only logs the confirmation
error), refuting the claim that a confirmed-but-errored transaction is
always reported as failure. -/
theorem bonk_confirmed_error_reports_success :
    bonkEnvConfirmErr.submit.heliusConfirmErr
        = some "InstructionError: custom program error"
    ∧ (createBonkTokenTx bonkEnvConfirmErr bonkReqW).1
        = Except.ok ⟨"bonkSig2", ""⟩ :=
  ⟨rfl, rfl⟩

/-- C1 (amended): in `createPumpFunToken` a non-null simulation error means
zero relay submissions, zero direct broadcasts, and a failed attempt.
(In `createBonkTokenTx` the simulation result is only logged and the
transaction is broadcast regardless; see the counterexample.) -/
theorem pump_simError_never_broadcasts (env : PumpEnv) (req : PumpRequest)
    (h : env.simErr.isSome = true) :
    (createPumpFunToken env req).2.relaySends = 0
    ∧ (createPumpFunToken env req).2.directSends = 0
    ∧ (createPumpFunToken env req).1.success = false := by
  rcases hs : env.simErr with _ | es
  · rw [hs] at h; simp at h
  · rcases hv : validateRequest req with e | u <;>
      by_cases hb : (env.bs58decode req.creatorKeypair).length ≠ 64 <;>
        rcases hfa : findAvailableAccountsT env.alloc with ⟨r, calls⟩ <;>
          rcases r with e2 | accs <;>
            rcases hu : env.upload with e3 | p <;>
              simp [createPumpFunToken, hv, hb, hfa, hu, hs, mkFail]

/-- Witness for C1: with a simulation error and all other oracles healthy,
the pump path performs no broadcast and fails. -/
theorem pump_simError_never_broadcasts_witness :
    (createPumpFunToken pumpEnvSimErrW pumpReqW).2.relaySends = 0
    ∧ (createPumpFunToken pumpEnvSimErrW pumpReqW).2.directSends = 0
    ∧ (createPumpFunToken pumpEnvSimErrW pumpReqW).1.success = false :=
  pump_simError_never_broadcasts pumpEnvSimErrW pumpReqW rfl

/-- C1 counterexample: in the bonk path the simulation reports a non-null
error, yet the transaction is still submitted via the relay (one broadcast
call) and the operation succeeds, refuting the claim that a non-null
simulation error always prevents broadcast and fails the attempt. -/
theorem bonk_simError_still_broadcasts :
    bonkEnvSimErr.simErr = some "InstructionError"
    ∧ (createBonkTokenTx bonkEnvSimErr bonkReqW).2.relaySends = 1
    ∧ (createBonkTokenTx bonkEnvSimErr bonkReqW).1
        = Except.ok ⟨"bonkSig", ""⟩ :=
  ⟨rfl, rfl, rfl⟩

/-- C6 (code-bug evidence): `createPumpFunToken` performs zero database
create calls on every path — including successful creations — although it
builds the token-data object and logs that it was stored; the persisted
record with an empty signature and the later signature update required by
the claim never happen on the pump path. -/
theorem createPumpFunToken_never_persists (env : PumpEnv) (req : PumpRequest) :
    (createPumpFunToken env req).2.storeCalls = 0 := by
  rcases hv : validateRequest req with e | u <;>
    by_cases hb : (env.bs58decode req.creatorKeypair).length ≠ 64 <;>
      rcases hfa : findAvailableAccountsT env.alloc with ⟨r, calls⟩ <;>
        rcases r with e2 | accs <;>
          rcases hu : env.upload with e3 | p <;>
            rcases hs : env.simErr with _ | es <;>
              rcases hsp : submitPhase env.submit with ⟨rs, st⟩ <;>
                rcases rs with e4 | pr <;>
                  simp [createPumpFunToken, hv, hb, hfa, hu, hs, hsp,
                    mkFail, mkSuccess]

theorem validateRequest_oversize (req : PumpRequest)
    (h : 32 < jsLen req.name ∨ 8 < jsLen req.symbol) :
    ∃ e, validateRequest req = Except.error e := by
  unfold validateRequest
  repeat' split
  all_goals try exact ⟨_, rfl⟩
  all_goals rcases h with h | h <;> omega

theorem bonkValidate_oversize (req : BonkRequest)
    (h : 32 < jsLen req.name ∨ 8 < jsLen req.symbol) :
    ∃ e, bonkValidate req = Except.error e := by
  unfold bonkValidate
  repeat' split
  all_goals try exact ⟨_, rfl⟩
  all_goals rcases h with h | h <;> omega

/-- C7: a request whose name exceeds 32 characters or whose symbol exceeds
8 characters fails validation with zero network calls (no RPC, relay, or
storage-upload call) and zero database calls, in both `createPumpFunToken`
and `createBonkTokenTx`. -/
theorem oversize_request_no_network (penv : PumpEnv) (preq : PumpRequest)
    (benv : BonkEnv) (breq : BonkRequest)
    (hp : 32 < jsLen preq.name ∨ 8 < jsLen preq.symbol)
    (hb : 32 < jsLen breq.name ∨ 8 < jsLen breq.symbol) :
    ((createPumpFunToken penv preq).1.success = false
      ∧ (createPumpFunToken penv preq).2 = ⟨0, 0, 0, 0⟩)
    ∧ (isOkBonk (createBonkTokenTx benv breq).1 = false
      ∧ (createBonkTokenTx benv breq).2 = ⟨0, 0, 0, 0⟩) := by
  obtain ⟨e1, he1⟩ := validateRequest_oversize preq hp
  obtain ⟨e2, he2⟩ := bonkValidate_oversize breq hb
  refine ⟨⟨?_, ?_⟩, ⟨?_, ?_⟩⟩ <;>
    simp [createPumpFunToken, createBonkTokenTx, he1, he2, mkFail, isOkBonk]

/-- Witness for C7: with a 33-character name both paths fail with a
zero-call trace. -/
theorem oversize_request_no_network_witness :
    ((createPumpFunToken pumpEnvC7 pumpReqLong).1.success = false
      ∧ (createPumpFunToken pumpEnvC7 pumpReqLong).2 = ⟨0, 0, 0, 0⟩)
    ∧ (isOkBonk (createBonkTokenTx bonkEnvC7 bonkReqLong).1 = false
      ∧ (createBonkTokenTx bonkEnvC7 bonkReqLong).2 = ⟨0, 0, 0, 0⟩) :=
  oversize_request_no_network pumpEnvC7 pumpReqLong bonkEnvC7 bonkReqLong
    (Or.inl (by decide)) (Or.inl (by decide))

/-- C8: whatever the incoming body says (mayhemMode false, true, or
absent), the request the route handler passes into token creation has
mayhemMode set to true. -/
theorem route_forces_mayhemMode (body : HandlerBody) (file : Option Nat)
    (req : PumpRequest) (h : routeCreateToken body file = some req) :
    req.mayhemMode = true := by
  unfold routeCreateToken at h
  simp_all
  exact h.2.2.2.2.2.2 ▸ rfl

/-- Witness for C8: a body carrying mayhemMode = false still reaches the
service with mayhemMode = true. -/
theorem route_forces_mayhemMode_witness :
    Option.map PumpRequest.mayhemMode (routeCreateToken bodyW (some 7))
      = some true := by
  rw [show routeCreateToken bodyW (some 7) = some handlerReqW from rfl]
  exact congrArg some (route_forces_mayhemMode bodyW (some 7) handlerReqW rfl)

/-- C9: `createPumpFunToken` is total over all oracle behaviours and every
result is either success with a signature and no error, or failure with an
error message and no signature — internal failures never escape as
exceptions. -/
theorem createPumpFunToken_total_result (env : PumpEnv) (req : PumpRequest) :
    ((createPumpFunToken env req).1.success = true
      ∧ ((createPumpFunToken env req).1.signature).isSome = true
      ∧ (createPumpFunToken env req).1.error = none)
    ∨ ((createPumpFunToken env req).1.success = false
      ∧ ((createPumpFunToken env req).1.error).isSome = true
      ∧ (createPumpFunToken env req).1.signature = none) := by
  rcases hv : validateRequest req with e | u <;>
    by_cases hb : (env.bs58decode req.creatorKeypair).length ≠ 64 <;>
      rcases hfa : findAvailableAccountsT env.alloc with ⟨r, calls⟩ <;>
        rcases r with e2 | accs <;>
          rcases hu : env.upload with e3 | p <;>
            rcases hs : env.simErr with _ | es <;>
              rcases hsp : submitPhase env.submit with ⟨rs, st⟩ <;>
                rcases rs with e4 | pr <;>
                  simp [createPumpFunToken, hv, hb, hfa, hu, hs, hsp,
                    mkFail, mkSuccess]

/-- C10 (amended): the instruction data buffer always has byte length
exactly 53 + name.length + symbol.length + uri.length (UTF-16 code-unit
lengths), and whenever name, symbol and uri consist solely of ASCII code
points the buffer equals the claimed layout (8-byte discriminator,
length-prefixed name, symbol and uri, 32-byte creator key, mayhem byte).
(For non-ASCII inputs the layout breaks; see the counterexample.) -/
theorem createPumpFunInstruction_layout_claim (name symbol uri : JsString)
    (pub : List Nat) (m : Bool) :
    (createPumpFunInstructionData name symbol uri pub m).length
      = 53 + jsLen name + jsLen symbol + jsLen uri
    ∧ (allAscii name = true → allAscii symbol = true → allAscii uri = true →
        pub.length = 32 →
        createPumpFunInstructionData name symbol uri pub m
          = pumpInstrSpecData name symbol uri pub m) :=
  ⟨createPumpFunInstructionDataLength name symbol uri pub m,
   fun hn hs hu hp =>
    createPumpFunInstructionDataAsciiLayout name symbol uri pub m hn hs hu hp⟩

/-- Witness for C10: a concrete ASCII request evaluates to the claimed
length and layout. -/
theorem createPumpFunInstruction_layout_claim_witness :
    (createPumpFunInstructionData (ascii "Test") (ascii "TST") (ascii "u")
        pubW true).length
      = 53 + jsLen (ascii "Test") + jsLen (ascii "TST") + jsLen (ascii "u")
    ∧ createPumpFunInstructionData (ascii "Test") (ascii "TST") (ascii "u")
        pubW true
      = pumpInstrSpecData (ascii "Test") (ascii "TST") (ascii "u") pubW true :=
  ⟨(createPumpFunInstruction_layout_claim (ascii "Test") (ascii "TST")
      (ascii "u") pubW true).1,
   (createPumpFunInstruction_layout_claim (ascii "Test") (ascii "TST")
      (ascii "u") pubW true).2 (by decide) (by decide) (by decide) (by decide)⟩

/-- C10 counterexample: with the one-character non-ASCII name U+00E9 the
buffer built by the code differs from the claimed layout (the UTF-8
encoding needs two bytes while the length prefix reserves one, so the
following fields overwrite it). -/
theorem createPumpFunInstruction_layout_counterexample :
    createPumpFunInstructionData c10Name c10Sym c10Uri c10Pub true
      ≠ pumpInstrSpecData c10Name c10Sym c10Uri c10Pub true := by
  decide
